import Mathlib

set_option linter.unusedVariables false

namespace PptxGen

/-- JSON values as delivered by flask request.get_json to the generate endpoint
(src/pptx_server.py line 136).  Python dicts are modelled as association lists
with distinct keys; numbers (int or float) are modelled exactly as rationals. -/
inductive Json where
  | null
  | bool (b : Bool)
  | num (q : ℚ)
  | str (s : String)
  | arr (elems : List Json)
  | obj (fields : List (String × Json))

/-- Python truthiness of a JSON value: None, False, 0, the empty string, the
empty list and the empty dict are falsy, everything else is truthy. -/
def Json.truthy : Json → Bool
  | .null => false
  | .bool b => b
  | .num q => decide (q ≠ 0)
  | .str s => decide (s ≠ "")
  | .arr l => !l.isEmpty
  | .obj l => !l.isEmpty

/-- dict.get(key, default): first binding of the key, or the default. -/
def jGetD (kvs : List (String × Json)) (k : String) (d : Json) : Json :=
  (kvs.lookup k).getD d

/-- Python `a or b` on JSON values. -/
def pyOr (a b : Json) : Json := if a.truthy then a else b

/-- Python str of an int or float.  The exact float formatting of Python is
external to the repository; integral rationals print their numerator and the
rest print num/den.  No claim depends on this rendering. -/
def numRepr (q : ℚ) : String :=
  if q.den = 1 then toString q.num else toString q.num ++ "/" ++ toString q.den

/-- Python repr of a JSON value, used by str() on lists and dicts.  String
escaping subtleties of repr are irrelevant to every claim and omitted. -/
def pyRepr : Json → String
  | .null => "None"
  | .bool true => "True"
  | .bool false => "False"
  | .num q => numRepr q
  | .str s => "\x27" ++ s ++ "\x27"
  | .arr l => "[" ++ String.intercalate ", " (l.attach.map fun x => pyRepr x.1) ++ "]"
  | .obj kvs =>
      "\x7b" ++
        String.intercalate ", "
          (kvs.attach.map fun kv => "\x27" ++ kv.1.1 ++ "\x27: " ++ pyRepr kv.1.2) ++
      "\x7d"
decreasing_by
  all_goals simp_wf
  · have := List.sizeOf_lt_of_mem x.2
    omega
  · obtain ⟨⟨k, v⟩, hkv⟩ := kv
    have := List.sizeOf_lt_of_mem hkv
    simp at this ⊢
    omega

/-- Python str() of a JSON value (top-level strings print without quotes). -/
def pyStr : Json → String
  | .str s => s
  | v => pyRepr v

/-- safe_text (src/pptx_server.py lines 94-99): None becomes the empty string,
lists are joined by newlines after str of each element, else str of the value. -/
def safe_text : Json → String
  | .null => ""
  | .arr l => String.intercalate "\n" (l.map pyStr)
  | v => pyStr v

/-- Python iteration over a value: lists yield their elements, strings yield
their characters as one-character strings, dicts yield their keys, and
everything else raises TypeError. -/
def pyIter : Json → Except String (List Json)
  | .arr l => Except.ok l
  | .str s => Except.ok (s.toList.map fun c => Json.str (String.singleton c))
  | .obj kvs => Except.ok (kvs.map fun kv => Json.str kv.1)
  | _ => Except.error "TypeError: object is not iterable"

/-- Python len() of a JSON value. -/
def pyLen : Json → Except String ℕ
  | .arr l => Except.ok l.length
  | .str s => Except.ok s.length
  | .obj l => Except.ok l.length
  | _ => Except.error "TypeError: object has no len"

/-- A value used where Python string concatenation requires str. -/
def asStr : Json → Except String String
  | .str s => Except.ok s
  | _ => Except.error "TypeError: can only concatenate str to str"

/-- A value on which .get or .keys is called, requiring a dict. -/
def asObj : Json → Except String (List (String × Json))
  | .obj kvs => Except.ok kvs
  | _ => Except.error "AttributeError: object has no attribute get"

/-- Decimal value of a digit list, None when a non-digit occurs. -/
def digitsVal (l : List Char) : ℕ :=
  l.foldl (fun acc c => acc * 10 + (c.toNat - 48)) 0

/-- Python float(string) for plain decimal literals: optional sign, digits,
optional fractional part.  Exponent and inf/nan forms are out of scope. -/
def pyFloatOfString (s : String) : Option ℚ :=
  let t := s.trim.toList
  let sgn : ℚ := match t with
    | '-' :: _ => -1
    | _ => 1
  let u : List Char := match t with
    | '-' :: r => r
    | '+' :: r => r
    | r => r
  let ip := u.takeWhile Char.isDigit
  let rest := u.dropWhile Char.isDigit
  match rest with
  | [] => if ip.isEmpty then none else some (sgn * (digitsVal ip : ℚ))
  | '.' :: fp =>
      if fp.all Char.isDigit && !(ip.isEmpty && fp.isEmpty) then
        some (sgn * ((digitsVal ip : ℚ) + (digitsVal fp : ℚ) / (10 : ℚ) ^ fp.length))
      else none
  | _ => none

/-- Python float() applied to a JSON value: numbers pass through, booleans give
0 or 1, decimal strings parse, everything else raises. -/
def pyFloat : Json → Except String ℚ
  | .num q => Except.ok q
  | .bool b => Except.ok (if b then 1 else 0)
  | .str s =>
      match pyFloatOfString s with
      | some q => Except.ok q
      | none => Except.error "ValueError: could not convert string to float"
  | _ => Except.error "TypeError: float argument must be a string or a number"

/-- Value of a hexadecimal digit (0 for non-hex characters; the themes only
ever supply valid digits). -/
def hexDigitVal (c : Char) : ℕ :=
  if c.isDigit then c.toNat - 48
  else if 'a' ≤ c && c ≤ 'f' then c.toNat - 87
  else if 'A' ≤ c && c ≤ 'F' then c.toNat - 55
  else 0

/-- An RGB color triple (each channel an integer). -/
abbrev RGB3 := Int × Int × Int

/-- hex_to_rgb (src/pptx_server.py lines 37-39): strip leading # and read the
byte pairs at offsets 0, 2, 4. -/
def hex_to_rgb (s : String) : RGB3 :=
  let t := (s.dropWhile (· = '#')).toList
  let byteAt : ℕ → Int := fun i =>
    ((16 * hexDigitVal (t.getD i '0') + hexDigitVal (t.getD (i + 1) '0') : ℕ) : Int)
  (byteAt 0, byteAt 2, byteAt 4)

/-- Substring test on character lists: the Python `sub in s` operator. -/
def hasSubl (pat : List Char) : List Char → Bool
  | [] => pat.isEmpty
  | c :: rest => pat.isPrefixOf (c :: rest) || hasSubl pat rest

/-- Python `sub in s` on strings. -/
def strIn (sub s : String) : Bool := hasSubl sub.toList s.toList

/-- THEME_MAP (src/pptx_server.py lines 20-27). -/
def THEME_MAP : List (String × (String × String)) :=
  [("tech", ("#1F4E79", "#6FA8DC")),
   ("food", ("#2E7D32", "#A5D6A7")),
   ("finance", ("#0B1A34", "#6B8EA3")),
   ("education", ("#6A1B9A", "#C39BD3")),
   ("health", ("#EF6C00", "#FFCC80")),
   ("default", ("#3E3E3E", "#BDBDBD"))]

/-- Lookup in THEME_MAP; the source only ever looks up present keys. -/
def themeOf (k : String) : String × String := (THEME_MAP.lookup k).getD ("", "")

/-- pick_theme (src/pptx_server.py lines 41-53): lower-cased concatenation of
the two strings, then five keyword checks in fixed order with a gray default. -/
def pick_theme (company_name business_type : String) : String × String :=
  let key := (company_name ++ " " ++ business_type).toLower
  if ["tech", "ai", "saas", "software"].any (fun k => strIn k key) then themeOf "tech"
  else if ["food", "organic", "agri", "restaurant"].any (fun k => strIn k key) then themeOf "food"
  else if ["finance", "bank", "invest"].any (fun k => strIn k key) then themeOf "finance"
  else if ["education", "edtech", "school"].any (fun k => strIn k key) then themeOf "education"
  else if ["health", "wellness", "clinic"].any (fun k => strIn k key) then themeOf "health"
  else themeOf "default"

/-- The ordered keyword categories of the spec (section 4.1), with their theme
pairs and the neutral gray default, used to state the ordering commitment. -/
def themeCategoriesSpec : List (List String × (String × String)) :=
  [(["tech", "ai", "saas", "software"], ("#1F4E79", "#6FA8DC")),
   (["food", "organic", "agri", "restaurant"], ("#2E7D32", "#A5D6A7")),
   (["finance", "bank", "invest"], ("#0B1A34", "#6B8EA3")),
   (["education", "edtech", "school"], ("#6A1B9A", "#C39BD3")),
   (["health", "wellness", "clinic"], ("#EF6C00", "#FFCC80"))]

/-- Spec-side theme selection (modelled from the words of spec section 4.1):
test the lower-cased concatenation against the ordered categories, first match
wins, no match yields the gray default pair. -/
def selectThemeSpec (company_name business_type : String) : String × String :=
  let key := (company_name ++ " " ++ business_type).toLower
  match themeCategoriesSpec.find? (fun cat => cat.1.any (fun k => strIn k key)) with
  | some cat => cat.2
  | none => ("#3E3E3E", "#BDBDBD")

/-- Python int() on a rational: truncation toward zero. -/
def pyTrunc (q : ℚ) : ℤ := if 0 ≤ q then ⌊q⌋ else ⌈q⌉

/-- One interpolated channel: int(a + (b - a) * r) from the source. -/
def lerpChan (a b : ℤ) (r : ℚ) : ℤ := pyTrunc ((a : ℚ) + ((b : ℚ) - (a : ℚ)) * r)

/-- Channel-wise interpolated color. -/
def lerp3 (c d : RGB3) (r : ℚ) : RGB3 :=
  (lerpChan c.1 d.1 r, lerpChan c.2.1 d.2.1 r, lerpChan c.2.2 d.2.2 r)

/-- Interpolation fraction for row i of a gradient with the given number of
steps: i / (steps - 1), or 0 when steps is 1 (src/pptx_server.py line 61). -/
def stepFrac (i steps : ℕ) : ℚ :=
  if 1 < steps then (i : ℚ) / ((steps : ℚ) - 1) else 0

/-- Solid color painted on row (or column) i of the gradient. -/
def gradientRow (cf ct : RGB3) (i steps : ℕ) : RGB3 := lerp3 cf ct (stepFrac i steps)

/-- The gradient raster before external post-processing: the per-step solid
colors in paint order, plus the parameters passed on to Gaussian blur and PNG
encoding (both external library steps). -/
structure GradientImage where
  rows : List RGB3
  size : ℕ × ℕ
  vertical : Bool
  blurred : Bool

/-- make_gradient_image (src/pptx_server.py lines 55-74): steps is the height
when vertical else the width; every step index is painted with its
interpolated solid color. -/
def make_gradient_image (cf ct : RGB3) (size : ℕ × ℕ) (vertical blur : Bool) :
    GradientImage :=
  let steps := if vertical then size.2 else size.1
  ⟨(List.range steps).map (fun i => gradientRow cf ct i steps), size, vertical, blur⟩

/-- The matplotlib default palette plt.cm.tab20.colors, a 20-entry external
library constant used only when the colors argument is falsy; its concrete
values are external to the repository and abstracted as names. -/
def tab20Colors : List String := (List.range 20).map (fun i => "tab20_" ++ toString i)

/-- The data handed to ax.pie by make_premium_pie_chart after the empty-input
substitution: slice values, their labels, and the cycled slice colors. -/
structure PieData where
  categories : Json
  values : Json
  sliceColors : List String

/-- make_premium_pie_chart (src/pptx_server.py lines 102-131): if categories
or values is falsy, both are replaced by a single N/A slice of value 1; the
palette is the colors argument when truthy else tab20; slice i gets
palette-index i mod palette length.  len(values) raises on unsized values. -/
def make_premium_pie_chart (categories values : Json) (colors : List String) :
    Except String PieData :=
  let cats := if !categories.truthy || !values.truthy then Json.arr [Json.str "N/A"] else categories
  let vals := if !categories.truthy || !values.truthy then Json.arr [Json.num 1] else values
  let palette := if colors.isEmpty then tab20Colors else colors
  match pyLen vals with
  | Except.error e => Except.error e
  | Except.ok n =>
      Except.ok ⟨cats, vals, (List.range n).map (fun i => palette.getD (i % palette.length) "")⟩

/-- The theme-derived matplotlib color list of add_styled_slide line 230. -/
def mplColors (themeFromHex themeToHex : String) : List String :=
  [themeFromHex, themeToHex, "#8888FF", "#66CC99", "#FFAA44"]

/-- Python equality of a value with a string literal. -/
def Json.isStrEq (j : Json) (s : String) : Bool :=
  match j with
  | .str t => t = s
  | _ => false

/-- The chart block of add_styled_slide (src/pptx_server.py lines 222-239)
before its surrounding try: read type, categories, values from the chart dict
(AttributeError on a non-dict) and call the pie renderer in the pie/donut
branch, and identically in the fallback branch for unsupported types. -/
def chartBlockE (colors : List String) (chart : Json) : Except String PieData :=
  Except.bind (asObj chart) fun kvs =>
  let ctype := jGetD kvs "type" (Json.str "pie")
  let categories := jGetD kvs "categories" (Json.arr [])
  let values := jGetD kvs "values" (Json.arr [])
  if ctype.isStrEq "pie" || ctype.isStrEq "donut" then
    make_premium_pie_chart categories values colors
  else
    make_premium_pie_chart categories values colors

/-- The chart block with its try/except (lines 223-241): any exception is
printed and swallowed, leaving the slide without a chart. -/
def chartBlock (colors : List String) (chart : Json) : Option PieData :=
  match chartBlockE colors chart with
  | Except.ok p => some p
  | Except.error _ => none

/-- An in-memory byte buffer with a stream position, modelling the io.BytesIO
logo buffer. -/
structure LogoBuf where
  data : List ℕ
  pos : ℕ

/-- The logo block of add_styled_slide (src/pptx_server.py lines 192-199):
seek(0), read into a fresh copy, add_picture on the copy, then seek(0) again.
When add_picture raises (failed = true) the final rewind is skipped and the
position is left at the end of the stream; the except clause swallows the
error either way.  Returns the bytes placed on the slide (if any) and the
buffer state afterwards. -/
def placeLogoF (failed : Bool) (buf : LogoBuf) : Option (List ℕ) × LogoBuf :=
  let bytes := buf.data.drop 0
  if failed then (none, ⟨buf.data, buf.data.length⟩) else (some bytes, ⟨buf.data, 0⟩)

/-- The per-slide elements whose rendering involves an external library call
that may raise: the background gradient (lines 171-176), the title text box
(lines 179-189), the logo placement (lines 191-201), the body text box
(lines 203-219) and the chart (lines 221-241). -/
inductive Elem where
  | background
  | title
  | logo
  | body
  | chart

/-- The failure oracle under which no external rendering call raises. -/
def noFail : Elem → Bool := fun _ => false

/-- One assembled slide: the two colors handed to the gradient renderer, the
title assigned to the title frame, the body paragraphs, the logo bytes placed
(if any), and the pie data rendered (if any). -/
structure Slide where
  gradFrom : RGB3
  gradTo : RGB3
  title : Json
  bodyLines : List Json
  logoBytes : Option (List ℕ)
  chart : Option PieData

/-- A slide with empty content, used only as a getD default in statements. -/
def defaultSlide : Slide := ⟨(0, 0, 0), (0, 0, 0), Json.null, [], none, none⟩

/-- The successful body of add_styled_slide (src/pptx_server.py lines
169-243): the gradient endpoints interpolate the theme colors at
slide_index/12 and (slide_index+1)/12 with int truncation; the title frame
gets title_text or the empty string; the logo is placed from the shared
buffer; the chart block runs under its try.  Returns the slide together with
the logo buffer state after this slide. -/
def mkSlide (logoFail chartFail : Bool) (colorFrom colorTo : RGB3)
    (themeFromHex themeToHex : String) (logo : Option LogoBuf) (title : Json)
    (body : List Json) (slideIndex : ℕ) (chart : Option Json) :
    Slide × Option LogoBuf :=
  let gFrom := lerp3 colorFrom colorTo ((slideIndex : ℚ) / 12)
  let gTo := lerp3 colorFrom colorTo (((slideIndex : ℚ) + 1) / 12)
  let logoStep : Option (List ℕ) × Option LogoBuf :=
    match logo with
    | none => (none, none)
    | some b =>
        let r := placeLogoF logoFail b
        (r.1, some r.2)
  let chartData : Option PieData :=
    match chart with
    | none => none
    | some c => if chartFail then none else chartBlock (mplColors themeFromHex themeToHex) c
  (⟨gFrom, gTo, pyOr title (Json.str ""), body, logoStep.1, chartData⟩, logoStep.2)

/-- add_styled_slide under a failure oracle: a raise while rendering the
background, title or body propagates (no surrounding try in the source),
while logo and chart failures are swallowed inside mkSlide.  The body text
box only runs when body_lines is truthy. -/
def add_styled_slide (fl : Elem → Bool) (colorFrom colorTo : RGB3)
    (themeFromHex themeToHex : String) (logo : Option LogoBuf) (title : Json)
    (body : List Json) (slideIndex : ℕ) (chart : Option Json) :
    Except String (Slide × Option LogoBuf) :=
  if fl Elem.background then Except.error "BackgroundRenderError"
  else if fl Elem.title then Except.error "TitleRenderError"
  else if fl Elem.body && !body.isEmpty then Except.error "BodyRenderError"
  else Except.ok (mkSlide (fl Elem.logo) (fl Elem.chart) colorFrom colorTo
    themeFromHex themeToHex logo title body slideIndex chart)

/-- Bullet list building of the body comprehensions: one bullet line per
iterated item, falling back to the given list when the comprehension is empty
(the Python `[...] or fallback` idiom). -/
def bulletsOr (fallback : List Json) (items : List Json) : List Json :=
  let bl := items.map (fun p => Json.str ("• " ++ pyStr p))
  if bl.isEmpty then fallback else bl

/-- Outcome of the generate endpoint: the 400 rejection of a falsy payload, an
uncaught Python exception (a 500), or the streamed presentation, observed as
its slides and download name. -/
inductive GenResult where
  | badRequest
  | exn (msg : String)
  | ok (slides : List Slide) (filename : String)

/-- The slide-building part of generate (src/pptx_server.py lines 140-320)
for a dict payload, threading the logo buffer through the twelve
add_styled_slide calls in source order. -/
def generateBody (fl : Elem → Bool) (kvs : List (String × Json))
    (logo0 : Option LogoBuf) : Except String (List Slide × String) :=
  let company := jGetD kvs "company_name" (Json.str "Company")
  let business := jGetD kvs "nature_of_business" (Json.str "")
  Except.bind (asStr company) fun cName =>
  Except.bind (asStr business) fun bName =>
  let theme := pick_theme cName bName
  let colorFrom := hex_to_rgb theme.1
  let colorTo := hex_to_rgb theme.2
  let heroLines := [Json.str (safe_text (pyOr (jGetD kvs "tagline" Json.null) (jGetD kvs "company_name" Json.null))),
                    Json.str (safe_text (jGetD kvs "nature_of_business" Json.null))]
  Except.bind (add_styled_slide fl colorFrom colorTo theme.1 theme.2 logo0
      (jGetD kvs "company_name" (Json.str "Company")) heroLines 0 none) fun r0 =>
  let overview := [Json.str (safe_text (jGetD kvs "nature_of_business" (Json.str ""))),
                   Json.str (safe_text (jGetD kvs "short_description" (Json.str "")))]
  Except.bind (add_styled_slide fl colorFrom colorTo theme.1 theme.2 r0.2
      (Json.str "Nature of Business") overview 1 none) fun r1 =>
  let vmLines := [Json.str ("Vision: " ++ safe_text (jGetD kvs "vision" (Json.str ""))),
                  Json.str ("Mission: " ++ safe_text (jGetD kvs "mission" (Json.str "")))]
  Except.bind (add_styled_slide fl colorFrom colorTo theme.1 theme.2 r1.2
      (Json.str "Vision & Mission") vmLines 2 none) fun r2 =>
  Except.bind (pyIter (jGetD kvs "consumer_problems" (Json.arr []))) fun problemsIt =>
  Except.bind (add_styled_slide fl colorFrom colorTo theme.1 theme.2 r2.2
      (Json.str "Problems Faced by Consumers")
      (bulletsOr [Json.str "No specific problems provided."] problemsIt) 3 none) fun r3 =>
  Except.bind (pyIter (jGetD kvs "solutions_provided" (Json.arr []))) fun solutionsIt =>
  Except.bind (add_styled_slide fl colorFrom colorTo theme.1 theme.2 r3.2
      (Json.str "Solutions Provided")
      (bulletsOr [Json.str "No solutions provided."] solutionsIt) 4 none) fun r4 =>
  Except.bind (pyIter (jGetD kvs "products_services" (Json.arr []))) fun prodsIt =>
  Except.bind (add_styled_slide fl colorFrom colorTo theme.1 theme.2 r4.2
      (Json.str "Products & Services")
      (bulletsOr [Json.str "No products/services listed."] prodsIt) 5 none) fun r5 =>
  let market := jGetD kvs "market_share" (Json.arr [])
  let marketItems : Json :=
    match market with
    | Json.obj mkvs =>
        Json.arr (mkvs.map fun kv => Json.obj [("segment", Json.str kv.1), ("percent", kv.2)])
    | _ => pyOr market (Json.arr [])
  Except.bind (if marketItems.truthy then
      Except.bind (pyIter marketItems) fun ms =>
      ms.mapM (fun m => Except.bind (asObj m) fun mk =>
        Except.ok (jGetD mk "segment" (Json.str "")))
    else Except.ok [Json.str "N/A"]) fun cats =>
  Except.bind (if marketItems.truthy then
      Except.bind (pyIter marketItems) fun ms =>
      ms.mapM (fun m => Except.bind (asObj m) fun mk =>
        pyFloat (jGetD mk "percent" (Json.num 0)))
    else Except.ok [(100 : ℚ)]) fun vals =>
  Except.bind (add_styled_slide fl colorFrom colorTo theme.1 theme.2 r5.2
      (Json.str "Market Share")
      [Json.str ("Total market coverage: " ++ numRepr vals.sum ++ "%")] 6
      (some (Json.obj [("type", Json.str "pie"), ("categories", Json.arr cats),
                       ("values", Json.arr (vals.map Json.num))]))) fun r6 =>
  Except.bind (pyIter (jGetD kvs "target_market" (Json.arr []))) fun targetIt =>
  Except.bind (add_styled_slide fl colorFrom colorTo theme.1 theme.2 r6.2
      (Json.str "Target Market")
      (bulletsOr [jGetD kvs "target_market" (Json.str "Not specified")] targetIt) 7 none) fun r7 =>
  Except.bind (pyIter (pyOr (jGetD kvs "usp" Json.null) (Json.arr []))) fun uspIt =>
  Except.bind (add_styled_slide fl colorFrom colorTo theme.1 theme.2 r7.2
      (Json.str "Unique Selling Proposition (USP)")
      (bulletsOr [jGetD kvs "usp" (Json.str "Not specified")] uspIt) 8 none) fun r8 =>
  let contact := jGetD kvs "company_contact" (jGetD kvs "contact_details" (Json.str "N/A"))
  Except.bind (add_styled_slide fl colorFrom colorTo theme.1 theme.2 r8.2
      (Json.str "Contact Details") [Json.str (safe_text contact)] 9 none) fun r9 =>
  let directors0 := jGetD kvs "directors" (Json.arr [])
  let directors :=
    if !directors0.truthy &&
        (match jGetD kvs "director_name" Json.null with
         | Json.str _ => true
         | _ => false) then
      Json.arr [Json.obj [("name", jGetD kvs "director_name" Json.null),
                          ("phone", jGetD kvs "director_phone" Json.null),
                          ("email", jGetD kvs "director_email" Json.null),
                          ("education", jGetD kvs "director_qualification" Json.null)]]
    else directors0
  Except.bind (Except.bind (pyIter directors) fun ds =>
      ds.mapM (fun d => Except.bind (asObj d) fun dk =>
        Except.ok (Json.str ("Name: " ++ pyStr (jGetD dk "name" (Json.str "")) ++
          "\nPhone: " ++ pyStr (jGetD dk "phone" (Json.str "")) ++
          "\nEmail: " ++ pyStr (jGetD dk "email" (Json.str "")) ++
          "\nEducation: " ++ pyStr (jGetD dk "education" (Json.str "")))))) fun dirLines0 =>
  Except.bind (add_styled_slide fl colorFrom colorTo theme.1 theme.2 r9.2
      (Json.str "Directors")
      (if dirLines0.isEmpty then [Json.str "No director data provided."] else dirLines0)
      10 none) fun r10 =>
  let fund0 := jGetD kvs "fund_deployment" (Json.obj [])
  Except.bind (if fund0.truthy then Except.ok fund0 else
      Except.bind (pyFloat (jGetD kvs "fund_deployment_testing" (Json.num 0))) fun v1 =>
      Except.bind (pyFloat (jGetD kvs "fund_deployment_manpower" (Json.num 0))) fun v2 =>
      Except.bind (pyFloat (jGetD kvs "fund_deployment_outsourced" (Json.num 0))) fun v3 =>
      Except.bind (pyFloat (jGetD kvs "fund_deployment_ip_costs" (Json.num 0))) fun v4 =>
      Except.bind (pyFloat (jGetD kvs "fund_deployment_travel" (Json.num 0))) fun v5 =>
      Except.bind (pyFloat (jGetD kvs "fund_deployment_consumables" (Json.num 0))) fun v6 =>
      Except.bind (pyFloat (jGetD kvs "fund_deployment_contingency" (Json.num 0))) fun v7 =>
      Except.bind (pyFloat (jGetD kvs "fund_deployment_others" (Json.num 0))) fun v8 =>
      Except.ok (Json.obj [("testing_manufacturing", Json.num v1),
                           ("man_power", Json.num v2),
                           ("outsourced_services", Json.num v3),
                           ("ip_costs", Json.num v4),
                           ("travel", Json.num v5),
                           ("consumables", Json.num v6),
                           ("contingency", Json.num v7),
                           ("others", Json.num v8)])) fun fund =>
  Except.bind (if fund.truthy then
      Except.bind (asObj fund) fun fk => Except.ok (fk.map fun kv => Json.str kv.1)
    else Except.ok [Json.str "N/A"]) fun catsFd =>
  Except.bind (if fund.truthy then
      Except.bind (asObj fund) fun fk => fk.mapM (fun kv => pyFloat kv.2)
    else Except.ok [(100 : ℚ)]) fun valsFd =>
  Except.bind (add_styled_slide fl colorFrom colorTo theme.1 theme.2 r10.2
      (Json.str "Fund Deployment")
      [Json.str ("Total: " ++ numRepr valsFd.sum ++ "%")] 11
      (some (Json.obj [("type", Json.str "pie"), ("categories", Json.arr catsFd),
                       ("values", Json.arr (valsFd.map Json.num))]))) fun r11 =>
  Except.ok ([r0.1, r1.1, r2.1, r3.1, r4.1, r5.1, r6.1, r7.1, r8.1, r9.1, r10.1, r11.1],
    pyStr company ++ "_pitchdeck.pptx")

/-- The generate endpoint (src/pptx_server.py lines 134-320).  A falsy payload
is rejected with the 400 error response (line 137); attribute access on a
truthy non-dict payload raises; otherwise the twelve slides are assembled.
The logo buffer parameter models the outcome of the logo_url fetch or the
template extraction (lines 148-166), both external best-effort effects. -/
def generate (fl : Elem → Bool) (payload : Json) (logo0 : Option LogoBuf) : GenResult :=
  if payload.truthy then
    match payload with
    | Json.obj kvs =>
        match generateBody fl kvs logo0 with
        | Except.ok r => GenResult.ok r.1 r.2
        | Except.error e => GenResult.exn e
    | _ => GenResult.exn "AttributeError: payload has no attribute get"
  else GenResult.badRequest

/-- Observation of a successful result: the number of slides. -/
def GenResult.slideCount : GenResult → Option ℕ
  | .ok s _ => some s.length
  | _ => none

/-- Observation of a successful result: all body line lists. -/
def GenResult.bodiesOf : GenResult → Option (List (List Json))
  | .ok s _ => some (s.map Slide.bodyLines)
  | _ => none

/-- Observation of a successful result: the colorFrom arguments handed to the
gradient renderer, slide by slide. -/
def GenResult.gradFromsOf : GenResult → Option (List RGB3)
  | .ok s _ => some (s.map Slide.gradFrom)
  | _ => none

/-- Observation of a successful result: the logo bytes placed on each slide. -/
def GenResult.logosOf : GenResult → Option (List (Option (List ℕ)))
  | .ok s _ => some (s.map Slide.logoBytes)
  | _ => none

/-- Observation of a successful result: the body lines of the slide at the
given index. -/
def GenResult.bodyAt : GenResult → ℕ → Option (List Json)
  | .ok s _, i => some ((s.getD i defaultSlide).bodyLines)
  | _, _ => none

/-- A minimal payload carrying only a company name. -/
def demoPayload : Json := Json.obj [("company_name", Json.str "X")]

/-- A payload whose company name matches the tech keywords. -/
def demoTech : Json := Json.obj [("company_name", Json.str "Acme AI")]

/-- A payload giving target_market and usp as non-empty strings. -/
def demoStrings : Json :=
  Json.obj [("target_market", Json.str "ab"), ("usp", Json.str "cd")]

/-- Number of gradient steps: the height for a vertical gradient, the width
otherwise. -/
def gradSteps (size : ℕ × ℕ) (vertical : Bool) : ℕ :=
  if vertical then size.2 else size.1

/-- A channel lies between two endpoint channels, inclusive. -/
def chanBetween (a b x : ℤ) : Prop := min a b ≤ x ∧ x ≤ max a b

/-- A color lies channel-wise between two endpoint colors. -/
def rgbBetween (a b x : RGB3) : Prop :=
  chanBetween a.1 b.1 x.1 ∧ chanBetween a.2.1 b.2.1 x.2.1 ∧ chanBetween a.2.2 b.2.2 x.2.2

/-- Two sampled channel values are ordered in the direction of the endpoint
channels (nondecreasing toward b when a is below b, nonincreasing when above). -/
def chanDirected (a b xi xj : ℤ) : Prop := (a ≤ b → xi ≤ xj) ∧ (b ≤ a → xj ≤ xi)

/-- Channel-wise directedness of two sampled colors. -/
def rgbDirected (a b xi xj : RGB3) : Prop :=
  chanDirected a.1 b.1 xi.1 xj.1 ∧ chanDirected a.2.1 b.2.1 xi.2.1 xj.2.1 ∧
    chanDirected a.2.2 b.2.2 xi.2.2 xj.2.2

/-- All three channels of a color are nonnegative. -/
def rgbNonneg (c : RGB3) : Prop := 0 ≤ c.1 ∧ 0 ≤ c.2.1 ∧ 0 ≤ c.2.2

/-- The oracle under which exactly the body text box raises. -/
def onlyBodyFail : Elem → Bool :=
  fun e => match e with
  | Elem.body => true
  | _ => false

/-- The oracle under which exactly logo placement and the chart render raise. -/
def logoChartFail : Elem → Bool :=
  fun e => match e with
  | Elem.logo => true
  | Elem.chart => true
  | _ => false

instance (a b x : ℤ) : Decidable (chanBetween a b x) := by
  unfold chanBetween; infer_instance

instance (a b : RGB3) (x : RGB3) : Decidable (rgbBetween a b x) := by
  unfold rgbBetween; infer_instance

instance (a b xi xj : ℤ) : Decidable (chanDirected a b xi xj) := by
  unfold chanDirected; infer_instance

instance (a b xi xj : RGB3) : Decidable (rgbDirected a b xi xj) := by
  unfold rgbDirected; infer_instance

instance (c : RGB3) : Decidable (rgbNonneg c) := by
  unfold rgbNonneg; infer_instance

end PptxGen

namespace PptxGen

/- ------------------------------------------------------------------ -/
/- Helper lemmas                                                      -/
/- ------------------------------------------------------------------ -/

theorem exceptBind_ok {ε α β : Type} (x : Except ε α) (f : α → Except ε β) (b : β) :
    Except.bind x f = Except.ok b ↔ ∃ a, x = Except.ok a ∧ f a = Except.ok b := by
  cases x with
  | error e => simp [Except.bind]
  | ok a => simp [Except.bind]

theorem add_styled_slide_ok_eq {fl : Elem → Bool} {cf ct : RGB3} {t1 t2 : String}
    {lg : Option LogoBuf} {ti : Json} {bo : List Json} {idx : ℕ} {ch : Option Json}
    {r : Slide × Option LogoBuf}
    (h : add_styled_slide fl cf ct t1 t2 lg ti bo idx ch = Except.ok r) :
    r = mkSlide (fl Elem.logo) (fl Elem.chart) cf ct t1 t2 lg ti bo idx ch := by
  unfold add_styled_slide at h
  split_ifs at h
  all_goals first
    | exact Except.noConfusion h
    | (injection h with h
       exact h.symm)

theorem generate_ok_inv {fl : Elem → Bool} {p : Json} {logo : Option LogoBuf}
    {slides : List Slide} {fn : String}
    (h : generate fl p logo = GenResult.ok slides fn) :
    ∃ kvs, p = Json.obj kvs ∧ generateBody fl kvs logo = Except.ok (slides, fn) := by
  unfold generate at h
  split at h
  · cases p with
    | obj kvs =>
        refine ⟨kvs, rfl, ?_⟩
        dsimp only at h
        cases hb : generateBody fl kvs logo with
        | ok r =>
            obtain ⟨s, f⟩ := r
            rw [hb] at h
            dsimp only at h
            injection h with h1 h2
            rw [h1, h2]
        | error e =>
            rw [hb] at h
            dsimp only at h
            exact GenResult.noConfusion h
    | null => exact GenResult.noConfusion h
    | bool b => dsimp only at h; exact GenResult.noConfusion h
    | num q => dsimp only at h; exact GenResult.noConfusion h
    | str s => dsimp only at h; exact GenResult.noConfusion h
    | arr l => dsimp only at h; exact GenResult.noConfusion h
  · exact GenResult.noConfusion h

theorem stepFrac_nonneg (i steps : ℕ) : 0 ≤ stepFrac i steps := by
  unfold stepFrac
  split_ifs with hs
  · have h2 : (1 : ℚ) < (steps : ℚ) := by exact_mod_cast hs
    apply div_nonneg (by positivity)
    linarith
  · exact le_refl 0

theorem stepFrac_le_one (i steps : ℕ) (h : i < steps) : stepFrac i steps ≤ 1 := by
  unfold stepFrac
  split_ifs with hs
  · have h1 : (i : ℚ) ≤ (steps : ℚ) - 1 := by
      have : (i : ℚ) + 1 ≤ (steps : ℚ) := by exact_mod_cast Nat.succ_le_of_lt h
      linarith
    have hpos : (0 : ℚ) < (steps : ℚ) - 1 := by
      have : (1 : ℚ) < (steps : ℚ) := by exact_mod_cast hs
      linarith
    rw [div_le_one hpos]
    exact h1
  · norm_num

theorem stepFrac_mono (i j steps : ℕ) (hij : i ≤ j) :
    stepFrac i steps ≤ stepFrac j steps := by
  unfold stepFrac
  split_ifs with hs
  · have hpos : (0 : ℚ) < (steps : ℚ) - 1 := by
      have : (1 : ℚ) < (steps : ℚ) := by exact_mod_cast hs
      linarith
    have hij' : (i : ℚ) ≤ (j : ℚ) := by exact_mod_cast hij
    gcongr
  · exact le_refl _

theorem stepFrac_zero (steps : ℕ) : stepFrac 0 steps = 0 := by
  unfold stepFrac
  split_ifs <;> simp

theorem stepFrac_last (steps : ℕ) (h : 1 < steps) : stepFrac (steps - 1) steps = 1 := by
  unfold stepFrac
  rw [if_pos h]
  have h1 : ((steps - 1 : ℕ) : ℚ) = (steps : ℚ) - 1 := by
    exact_mod_cast Nat.cast_sub (le_of_lt h)
  rw [h1]
  have hlt : (1 : ℚ) < (steps : ℚ) := by exact_mod_cast h
  exact div_self (ne_of_gt (by linarith))

theorem pyTrunc_intCast (n : ℤ) : pyTrunc (n : ℚ) = n := by
  unfold pyTrunc
  split_ifs
  · exact Int.floor_intCast n
  · exact Int.ceil_intCast n

theorem lerpChan_zero (a b : ℤ) : lerpChan a b 0 = a := by
  unfold lerpChan
  rw [mul_zero, add_zero, pyTrunc_intCast]

theorem lerpChan_one (a b : ℤ) : lerpChan a b 1 = b := by
  unfold lerpChan
  have h : (a : ℚ) + ((b : ℚ) - (a : ℚ)) * 1 = ((b : ℤ) : ℚ) := by ring
  rw [h, pyTrunc_intCast]

theorem lerpChan_arg_nonneg (a b : ℤ) (r : ℚ) (ha : 0 ≤ a) (hb : 0 ≤ b)
    (h0 : 0 ≤ r) (h1 : r ≤ 1) : (0 : ℚ) ≤ (a : ℚ) + ((b : ℚ) - (a : ℚ)) * r := by
  have ha' : (0 : ℚ) ≤ (a : ℚ) := by exact_mod_cast ha
  have hb' : (0 : ℚ) ≤ (b : ℚ) := by exact_mod_cast hb
  nlinarith [mul_nonneg ha' (sub_nonneg.mpr h1), mul_nonneg hb' h0]

theorem lerpChan_between (a b : ℤ) (r : ℚ) (ha : 0 ≤ a) (hb : 0 ≤ b)
    (h0 : 0 ≤ r) (h1 : r ≤ 1) : chanBetween a b (lerpChan a b r) := by
  have harg := lerpChan_arg_nonneg a b r ha hb h0 h1
  unfold chanBetween lerpChan pyTrunc
  rw [if_pos harg]
  constructor
  · rcases le_total a b with hab | hba
    · rw [min_eq_left hab]
      apply Int.le_floor.mpr
      have hab' : (a : ℚ) ≤ (b : ℚ) := by exact_mod_cast hab
      nlinarith [mul_nonneg (sub_nonneg.mpr hab') h0]
    · rw [min_eq_right hba]
      apply Int.le_floor.mpr
      have hba' : (b : ℚ) ≤ (a : ℚ) := by exact_mod_cast hba
      nlinarith [mul_nonneg (sub_nonneg.mpr h1) (sub_nonneg.mpr hba')]
  · rcases le_total a b with hab | hba
    · rw [max_eq_right hab]
      have hab' : (a : ℚ) ≤ (b : ℚ) := by exact_mod_cast hab
      have hq : (a : ℚ) + ((b : ℚ) - (a : ℚ)) * r ≤ ((b : ℤ) : ℚ) := by
        nlinarith [mul_nonneg (sub_nonneg.mpr h1) (sub_nonneg.mpr hab')]
      calc ⌊(a : ℚ) + ((b : ℚ) - (a : ℚ)) * r⌋ ≤ ⌊((b : ℤ) : ℚ)⌋ := Int.floor_le_floor hq
        _ = b := Int.floor_intCast b
    · rw [max_eq_left hba]
      have hba' : (b : ℚ) ≤ (a : ℚ) := by exact_mod_cast hba
      have hq : (a : ℚ) + ((b : ℚ) - (a : ℚ)) * r ≤ ((a : ℤ) : ℚ) := by
        nlinarith [mul_nonneg (sub_nonneg.mpr hba') h0]
      calc ⌊(a : ℚ) + ((b : ℚ) - (a : ℚ)) * r⌋ ≤ ⌊((a : ℤ) : ℚ)⌋ := Int.floor_le_floor hq
        _ = a := Int.floor_intCast a

theorem lerpChan_directed (a b : ℤ) (r r' : ℚ) (ha : 0 ≤ a) (hb : 0 ≤ b)
    (h0 : 0 ≤ r) (hrr : r ≤ r') (h1 : r' ≤ 1) :
    chanDirected a b (lerpChan a b r) (lerpChan a b r') := by
  have h0' : 0 ≤ r' := le_trans h0 hrr
  have h1r : r ≤ 1 := le_trans hrr h1
  have harg := lerpChan_arg_nonneg a b r ha hb h0 h1r
  have harg' := lerpChan_arg_nonneg a b r' ha hb h0' h1
  unfold chanDirected lerpChan pyTrunc
  rw [if_pos harg, if_pos harg']
  constructor
  · intro hab
    apply Int.floor_le_floor
    have hab' : (a : ℚ) ≤ (b : ℚ) := by exact_mod_cast hab
    nlinarith [mul_nonneg (sub_nonneg.mpr hab') (sub_nonneg.mpr hrr)]
  · intro hba
    apply Int.floor_le_floor
    have hba' : (b : ℚ) ≤ (a : ℚ) := by exact_mod_cast hba
    nlinarith [mul_nonneg (sub_nonneg.mpr hba') (sub_nonneg.mpr hrr)]

theorem gradient_rows_getD (cf ct : RGB3) (size : ℕ × ℕ) (v b : Bool) (i : ℕ)
    (d : RGB3) (h : i < gradSteps size v) :
    (make_gradient_image cf ct size v b).rows.getD i d =
      gradientRow cf ct i (gradSteps size v) := by
  unfold gradSteps at h ⊢
  unfold make_gradient_image
  rw [List.getD_eq_getElem?_getD, List.getElem?_map, List.getElem?_range h]
  rfl

/-- C5: for every gradient render with nonnegative channel values, every
channel of every generated row/column color lies between the corresponding
channels of colorFrom and colorTo inclusive, the interpolation is monotonic
along the gradient axis in the direction of each channel pair, and pre-blur
the first row/column equals colorFrom and (when there are at least two steps)
the last equals colorTo, with fraction i/(steps-1), or 0 when steps is 1, and
integer truncation per channel. -/
theorem gradient_monotone_bounded_endpoints (cf ct : RGB3) (size : ℕ × ℕ)
    (vert blur : Bool) (hcf : rgbNonneg cf) (hct : rgbNonneg ct) :
    (∀ i, i < gradSteps size vert →
      rgbBetween cf ct ((make_gradient_image cf ct size vert blur).rows.getD i (0, 0, 0))) ∧
    (∀ i j, i ≤ j → j < gradSteps size vert →
      rgbDirected cf ct ((make_gradient_image cf ct size vert blur).rows.getD i (0, 0, 0))
        ((make_gradient_image cf ct size vert blur).rows.getD j (0, 0, 0))) ∧
    (0 < gradSteps size vert →
      (make_gradient_image cf ct size vert blur).rows.getD 0 (0, 0, 0) = cf) ∧
    (1 < gradSteps size vert →
      (make_gradient_image cf ct size vert blur).rows.getD (gradSteps size vert - 1) (0, 0, 0) = ct) := by
  obtain ⟨h1, h2, h3⟩ := hcf
  obtain ⟨k1, k2, k3⟩ := hct
  refine ⟨?_, ?_, ?_, ?_⟩
  · intro i hi
    rw [gradient_rows_getD cf ct size vert blur i _ hi]
    unfold gradientRow lerp3 rgbBetween
    exact ⟨lerpChan_between _ _ _ h1 k1 (stepFrac_nonneg _ _) (stepFrac_le_one _ _ hi),
           lerpChan_between _ _ _ h2 k2 (stepFrac_nonneg _ _) (stepFrac_le_one _ _ hi),
           lerpChan_between _ _ _ h3 k3 (stepFrac_nonneg _ _) (stepFrac_le_one _ _ hi)⟩
  · intro i j hij hj
    rw [gradient_rows_getD cf ct size vert blur i _ (lt_of_le_of_lt hij hj),
        gradient_rows_getD cf ct size vert blur j _ hj]
    unfold gradientRow lerp3 rgbDirected
    exact ⟨lerpChan_directed _ _ _ _ h1 k1 (stepFrac_nonneg _ _)
             (stepFrac_mono _ _ _ hij) (stepFrac_le_one _ _ hj),
           lerpChan_directed _ _ _ _ h2 k2 (stepFrac_nonneg _ _)
             (stepFrac_mono _ _ _ hij) (stepFrac_le_one _ _ hj),
           lerpChan_directed _ _ _ _ h3 k3 (stepFrac_nonneg _ _)
             (stepFrac_mono _ _ _ hij) (stepFrac_le_one _ _ hj)⟩
  · intro hpos
    rw [gradient_rows_getD cf ct size vert blur 0 _ hpos]
    unfold gradientRow
    rw [stepFrac_zero]
    unfold lerp3
    rw [lerpChan_zero, lerpChan_zero, lerpChan_zero]
  · intro hlt
    rw [gradient_rows_getD cf ct size vert blur _ _ (Nat.sub_lt (lt_trans one_pos hlt) one_pos)]
    unfold gradientRow
    rw [stepFrac_last _ hlt]
    unfold lerp3
    rw [lerpChan_one, lerpChan_one, lerpChan_one]

/-- Witness for C5 at a concrete gradient: the first painted row of a 4 by 3
vertical gradient equals colorFrom. -/
theorem gradient_monotone_bounded_endpoints_witness :
    (make_gradient_image (10, 20, 30) (40, 10, 255) (4, 3) true true).rows.getD 0 (0, 0, 0) =
      (10, 20, 30) :=
  (gradient_monotone_bounded_endpoints (10, 20, 30) (40, 10, 255) (4, 3) true true
    (by decide) (by decide)).2.2.1 (by decide)

/-- C8: the gradient renderer is deterministic: two runs with equal inputs
(colorFrom, colorTo, size, vertical, blur) produce the same image, hence
byte-identical output after the fixed external blur and PNG encoding. -/
theorem gradient_deterministic (cf cf' ct ct' : RGB3) (s s' : ℕ × ℕ)
    (v v' b b' : Bool) (h1 : cf = cf') (h2 : ct = ct') (h3 : s = s')
    (h4 : v = v') (h5 : b = b') :
    make_gradient_image cf ct s v b = make_gradient_image cf' ct' s' v' b' := by
  rw [h1, h2, h3, h4, h5]

/-- Witness for C8 at concrete inputs. -/
theorem gradient_deterministic_witness :
    make_gradient_image (1, 2, 3) (4, 5, 6) (8, 2) true false =
      make_gradient_image (1, 2, 3) (4, 5, 6) (8, 2) true false :=
  gradient_deterministic (1, 2, 3) (1, 2, 3) (4, 5, 6) (4, 5, 6) (8, 2) (8, 2)
    true true false false rfl rfl rfl rfl rfl

/-- C4: theme selection tests the lower-cased concatenation of company name
and business type against the five keyword categories in the fixed order
tech, food, finance, education, health; the first matching category wins
(so a string matching only one category selects it and a string matching two
selects the earlier one) and no match yields the default gray pair — stated
as equality with the ordered first-match selection written from the spec. -/
theorem pick_theme_ordered_first_match (c b : String) :
    pick_theme c b = selectThemeSpec c b := by
  simp only [pick_theme, selectThemeSpec]
  split_ifs <;>
    simp [themeCategoriesSpec, List.find?, themeOf, THEME_MAP, List.lookup, *]

/-- C2 counterexample: a non-empty values list summing to zero is handed to
the plot library unchanged, not replaced by the N/A slice. -/
theorem zero_sum_chart_not_substituted :
    make_premium_pie_chart (Json.arr [Json.str "Ops"]) (Json.arr [Json.num 0])
        (mplColors "#1F4E79" "#6FA8DC") =
      Except.ok ⟨Json.arr [Json.str "Ops"], Json.arr [Json.num 0], ["#1F4E79"]⟩ ∧
    [(0 : ℚ)].sum = 0 ∧
    Json.arr [Json.str "Ops"] ≠ Json.arr [Json.str "N/A"] := by
  refine ⟨rfl, by simp, ?_⟩
  intro h
  injection h with h
  injection h with h1 h2
  injection h1 with h1
  exact absurd h1 (by decide)

/-- C2 amended: when categories or values is empty (falsy), the chart renderer
does not fail and substitutes a single N/A slice of value 1 (the whole pie,
labelled 100 percent by autopct) with the first palette color; a non-empty
zero-sum values list is not substituted. -/
theorem pie_chart_empty_substitution (categories values : Json) (colors : List String)
    (h : categories.truthy = false ∨ values.truthy = false) :
    make_premium_pie_chart categories values colors =
      Except.ok ⟨Json.arr [Json.str "N/A"], Json.arr [Json.num 1],
        [(if colors.isEmpty then tab20Colors else colors).getD 0 ""]⟩ := by
  unfold make_premium_pie_chart
  have hc : (!categories.truthy || !values.truthy) = true := by
    rcases h with h | h <;> simp [h]
  simp [hc, pyLen, List.range_succ, List.range_zero]

/-- Witness for C2 at the fully empty chart input. -/
theorem pie_chart_empty_substitution_witness :
    make_premium_pie_chart (Json.arr []) (Json.arr []) (mplColors "#2E7D32" "#A5D6A7") =
      Except.ok ⟨Json.arr [Json.str "N/A"], Json.arr [Json.num 1], ["#2E7D32"]⟩ := by
  rw [pie_chart_empty_substitution (Json.arr []) (Json.arr [])
    (mplColors "#2E7D32" "#A5D6A7") (Or.inl rfl)]
  rfl

/-- C3 counterexample: a rendering failure in the body text box (which has no
surrounding try in the source) aborts the slide and the whole request instead
of being skipped. -/
theorem body_failure_aborts_request :
    add_styled_slide onlyBodyFail (0, 0, 0) (5, 5, 5) "#1F4E79" "#6FA8DC" none
        (Json.str "T") [Json.str "line"] 0 none = Except.error "BodyRenderError" ∧
    generate onlyBodyFail demoPayload none = GenResult.exn "BodyRenderError" :=
  ⟨rfl, rfl⟩

/-- C3 amended: only failures while placing the logo or rendering the chart
are caught and skipped, with the remaining fields of the slide still emitted;
failures while rendering the background, title or body abort the slide and
propagate. -/
theorem composer_failure_containment (fl : Elem → Bool) (cf ct : RGB3)
    (t1 t2 : String) (lg : Option LogoBuf) (ti : Json) (bo : List Json)
    (idx : ℕ) (ch : Option Json) (hbg : fl Elem.background = false)
    (hti : fl Elem.title = false) (hbo : fl Elem.body = false) :
    add_styled_slide fl cf ct t1 t2 lg ti bo idx ch =
      Except.ok (mkSlide (fl Elem.logo) (fl Elem.chart) cf ct t1 t2 lg ti bo idx ch) ∧
    (mkSlide (fl Elem.logo) (fl Elem.chart) cf ct t1 t2 lg ti bo idx ch).1.bodyLines = bo ∧
    (mkSlide (fl Elem.logo) (fl Elem.chart) cf ct t1 t2 lg ti bo idx ch).1.title =
      pyOr ti (Json.str "") ∧
    (fl Elem.chart = true →
      (mkSlide (fl Elem.logo) (fl Elem.chart) cf ct t1 t2 lg ti bo idx ch).1.chart = none) ∧
    (fl Elem.logo = true →
      (mkSlide (fl Elem.logo) (fl Elem.chart) cf ct t1 t2 lg ti bo idx ch).1.logoBytes = none) := by
  refine ⟨?_, ?_, ?_, ?_, ?_⟩
  · simp [add_styled_slide, hbg, hti, hbo]
  · simp [mkSlide]
  · simp [mkSlide]
  · intro hc
    cases ch <;> simp [mkSlide, hc]
  · intro hl
    cases lg <;> simp [mkSlide, placeLogoF, hl]

/-- Witness for C3: under an oracle failing exactly the logo and chart, the
slide is still emitted with its body and title, minus those two elements. -/
theorem composer_failure_containment_witness :
    add_styled_slide logoChartFail (0, 0, 0) (9, 9, 9) "#1F4E79" "#6FA8DC"
        (some ⟨[1, 2], 0⟩) (Json.str "T") [Json.str "b"] 2
        (some (Json.obj [("type", Json.str "pie")])) =
      Except.ok (mkSlide true true (0, 0, 0) (9, 9, 9) "#1F4E79" "#6FA8DC"
        (some ⟨[1, 2], 0⟩) (Json.str "T") [Json.str "b"] 2
        (some (Json.obj [("type", Json.str "pie")]))) ∧
    (mkSlide true true (0, 0, 0) (9, 9, 9) "#1F4E79" "#6FA8DC"
        (some ⟨[1, 2], 0⟩) (Json.str "T") [Json.str "b"] 2
        (some (Json.obj [("type", Json.str "pie")]))).1.bodyLines = [Json.str "b"] ∧
    (mkSlide true true (0, 0, 0) (9, 9, 9) "#1F4E79" "#6FA8DC"
        (some ⟨[1, 2], 0⟩) (Json.str "T") [Json.str "b"] 2
        (some (Json.obj [("type", Json.str "pie")]))).1.chart = none ∧
    (mkSlide true true (0, 0, 0) (9, 9, 9) "#1F4E79" "#6FA8DC"
        (some ⟨[1, 2], 0⟩) (Json.str "T") [Json.str "b"] 2
        (some (Json.obj [("type", Json.str "pie")]))).1.logoBytes = none := by
  have h := composer_failure_containment logoChartFail (0, 0, 0) (9, 9, 9)
    "#1F4E79" "#6FA8DC" (some ⟨[1, 2], 0⟩) (Json.str "T") [Json.str "b"] 2
    (some (Json.obj [("type", Json.str "pie")])) rfl rfl rfl
  exact ⟨h.1, h.2.1, h.2.2.2.1 rfl, h.2.2.2.2 rfl⟩

/-- C10: for every chart spec whose type field is neither pie nor donut, the
composer renders exactly the same chart as for type pie: both branches call
the pie renderer with identical categories, values and palette. -/
theorem chart_type_fallback_same_render (fl : Elem → Bool) (cf ct : RGB3)
    (t1 t2 : String) (lg : Option LogoBuf) (ti : Json) (bo : List Json)
    (idx : ℕ) (v : Json) (rest : List (String × Json))
    (hp : v ≠ Json.str "pie") (hd : v ≠ Json.str "donut") :
    add_styled_slide fl cf ct t1 t2 lg ti bo idx
        (some (Json.obj (("type", v) :: rest))) =
      add_styled_slide fl cf ct t1 t2 lg ti bo idx
        (some (Json.obj (("type", Json.str "pie") :: rest))) := by
  simp [add_styled_slide, mkSlide, chartBlock, chartBlockE, asObj, jGetD,
    List.lookup, Except.bind]

/-- Witness for C10 with the unsupported type bar. -/
theorem chart_type_fallback_same_render_witness :
    add_styled_slide noFail (1, 1, 1) (2, 2, 2) "#1F4E79" "#6FA8DC" none
        (Json.str "T") [] 6
        (some (Json.obj [("type", Json.str "bar"),
          ("categories", Json.arr [Json.str "a"]), ("values", Json.arr [Json.num 5])])) =
      add_styled_slide noFail (1, 1, 1) (2, 2, 2) "#1F4E79" "#6FA8DC" none
        (Json.str "T") [] 6
        (some (Json.obj [("type", Json.str "pie"),
          ("categories", Json.arr [Json.str "a"]), ("values", Json.arr [Json.num 5])])) :=
  chart_type_fallback_same_render noFail (1, 1, 1) (2, 2, 2) "#1F4E79" "#6FA8DC"
    none (Json.str "T") [] 6 (Json.str "bar")
    [("categories", Json.arr [Json.str "a"]), ("values", Json.arr [Json.num 5])]
    (by intro h; injection h with h; exact absurd h (by decide))
    (by intro h; injection h with h; exact absurd h (by decide))

/-- Inversion of a successful generateBody run: the two string coercions and
the per-slide calls it is built from, in source order, with the slide list
assembled from their results.  Shared scaffolding for the generate-level
claims. -/
theorem generateBody_ok_shape (fl : Elem → Bool) (kvs : List (String × Json))
    (logo0 : Option LogoBuf) (slides : List Slide) (fn : String)
    (h : generateBody fl kvs logo0 = Except.ok (slides, fn)) :
    ∃ (cName bName : String) (th : String × String) (targetIt uspIt : List Json)
      (b0 b1 b2 b3 b4 b5 b6 b9 b10 b11 : List Json) (ch6 ch11 : Option Json)
      (r0 r1 r2 r3 r4 r5 r6 r7 r8 r9 r10 r11 : Slide × Option LogoBuf),
      th = pick_theme cName bName ∧
      asStr (jGetD kvs "company_name" (Json.str "Company")) = Except.ok cName ∧
      asStr (jGetD kvs "nature_of_business" (Json.str "")) = Except.ok bName ∧
      pyIter (jGetD kvs "target_market" (Json.arr [])) = Except.ok targetIt ∧
      pyIter (pyOr (jGetD kvs "usp" Json.null) (Json.arr [])) = Except.ok uspIt ∧
      add_styled_slide fl (hex_to_rgb th.1) (hex_to_rgb th.2) th.1 th.2 logo0
        (jGetD kvs "company_name" (Json.str "Company")) b0 0 none = Except.ok r0 ∧
      add_styled_slide fl (hex_to_rgb th.1) (hex_to_rgb th.2) th.1 th.2 r0.2
        (Json.str "Nature of Business") b1 1 none = Except.ok r1 ∧
      add_styled_slide fl (hex_to_rgb th.1) (hex_to_rgb th.2) th.1 th.2 r1.2
        (Json.str "Vision & Mission") b2 2 none = Except.ok r2 ∧
      add_styled_slide fl (hex_to_rgb th.1) (hex_to_rgb th.2) th.1 th.2 r2.2
        (Json.str "Problems Faced by Consumers") b3 3 none = Except.ok r3 ∧
      add_styled_slide fl (hex_to_rgb th.1) (hex_to_rgb th.2) th.1 th.2 r3.2
        (Json.str "Solutions Provided") b4 4 none = Except.ok r4 ∧
      add_styled_slide fl (hex_to_rgb th.1) (hex_to_rgb th.2) th.1 th.2 r4.2
        (Json.str "Products & Services") b5 5 none = Except.ok r5 ∧
      add_styled_slide fl (hex_to_rgb th.1) (hex_to_rgb th.2) th.1 th.2 r5.2
        (Json.str "Market Share") b6 6 ch6 = Except.ok r6 ∧
      add_styled_slide fl (hex_to_rgb th.1) (hex_to_rgb th.2) th.1 th.2 r6.2
        (Json.str "Target Market")
        (bulletsOr [jGetD kvs "target_market" (Json.str "Not specified")] targetIt)
        7 none = Except.ok r7 ∧
      add_styled_slide fl (hex_to_rgb th.1) (hex_to_rgb th.2) th.1 th.2 r7.2
        (Json.str "Unique Selling Proposition (USP)")
        (bulletsOr [jGetD kvs "usp" (Json.str "Not specified")] uspIt)
        8 none = Except.ok r8 ∧
      add_styled_slide fl (hex_to_rgb th.1) (hex_to_rgb th.2) th.1 th.2 r8.2
        (Json.str "Contact Details") b9 9 none = Except.ok r9 ∧
      add_styled_slide fl (hex_to_rgb th.1) (hex_to_rgb th.2) th.1 th.2 r9.2
        (Json.str "Directors") b10 10 none = Except.ok r10 ∧
      add_styled_slide fl (hex_to_rgb th.1) (hex_to_rgb th.2) th.1 th.2 r10.2
        (Json.str "Fund Deployment") b11 11 ch11 = Except.ok r11 ∧
      slides = [r0.1, r1.1, r2.1, r3.1, r4.1, r5.1, r6.1, r7.1, r8.1, r9.1,
                r10.1, r11.1] := by
  simp only [generateBody, exceptBind_ok, Except.ok.injEq, Prod.mk.injEq] at h
  obtain ⟨cN, hc, bN, hb, r0, h0, r1, h1, r2, h2, pIt, hp, r3, h3, sIt, hsi,
    r4, h4, prIt, hpr, r5, h5, cats, hcats, vals, hvals, r6, h6, tIt, ht,
    r7, h7, uIt, hui, r8, h8, r9, h9, dls, hdls, r10, h10, fund, hfund,
    cfd, hcfd, vfd, hvfd, r11, h11, hsl, hfn⟩ := h
  exact ⟨cN, bN, pick_theme cN bN, tIt, uIt, _, _, _, _, _, _, _, _, _, _, _, _,
    r0, r1, r2, r3, r4, r5, r6, r7, r8, r9, r10, r11, rfl, hc, hb, ht, hui,
    h0, h1, h2, h3, h4, h5, h6, h7, h8, h9, h10, h11, hsl.symm⟩

/-- C1 counterexample: the entirely empty JSON object payload is falsy in
Python, so the guard on line 137 rejects it with the 400 error response
instead of producing a presentation. -/
theorem empty_payload_rejected :
    generate noFail (Json.obj []) none = GenResult.badRequest := rfl

/-- C1 amended: every request that generate answers with a presentation file
carries exactly 12 slides, and missing fields degrade to the documented
placeholder text (checked on a minimal one-field payload); but the empty
object payload is rejected with a 400 error rather than rendered, and a
payload whose fields are ill-typed for iteration or float conversion raises
instead of degrading. -/
theorem generate_slide_count_spec :
    (∀ (fl : Elem → Bool) (payload : Json) (logo : Option LogoBuf)
        (slides : List Slide) (fn : String),
      generate fl payload logo = GenResult.ok slides fn → slides.length = 12) ∧
    (∀ (fl : Elem → Bool) (logo : Option LogoBuf),
      generate fl (Json.obj []) logo = GenResult.badRequest) ∧
    (GenResult.bodiesOf (generate noFail demoPayload none)).map
        (fun ls => [ls.getD 3 [], ls.getD 4 [], ls.getD 5 [], ls.getD 7 [],
                    ls.getD 8 [], ls.getD 9 [], ls.getD 10 []]) =
      some [[Json.str "No specific problems provided."],
            [Json.str "No solutions provided."],
            [Json.str "No products/services listed."],
            [Json.str "Not specified"],
            [Json.str "Not specified"],
            [Json.str "N/A"],
            [Json.str "No director data provided."]] := by
  refine ⟨?_, ?_, ?_⟩
  · intro fl payload logo slides fn h
    obtain ⟨kvs, rfl, hbody⟩ := generate_ok_inv h
    obtain ⟨cN, bN, th, tIt, uIt, b0, b1, b2, b3, b4, b5, b6, b9, b10, b11,
      ch6, ch11, r0, r1, r2, r3, r4, r5, r6, r7, r8, r9, r10, r11, hth,
      hc, hb, ht, hu, h0, h1, h2, h3, h4, h5, h6, h7, h8, h9, h10, h11, hsl⟩ :=
      generateBody_ok_shape fl kvs logo slides fn hbody
    rw [hsl]
    rfl
  · intro fl logo
    rfl
  · rfl

/-- Witness for C1: the minimal one-field payload yields exactly 12 slides. -/
theorem generate_slide_count_spec_witness :
    GenResult.slideCount (generate noFail demoPayload none) = some 12 := by
  obtain ⟨slides, fn, hgen⟩ :
      ∃ slides fn, generate noFail demoPayload none = GenResult.ok slides fn :=
    ⟨_, _, rfl⟩
  rw [hgen]
  simp only [GenResult.slideCount]
  rw [generate_slide_count_spec.1 noFail demoPayload none slides fn hgen]

/-- C6: for every slide index k in 0..11, the composer invokes the gradient
renderer with colorFrom the channel-wise interpolation (with int truncation)
of the theme primary and secondary colors at fraction k/12 and colorTo the
interpolation at (k+1)/12. -/
theorem slide_gradient_interpolation (fl : Elem → Bool) (kvs : List (String × Json))
    (logo : Option LogoBuf) (slides : List Slide) (fn : String) (cn bt : String)
    (hcn : jGetD kvs "company_name" (Json.str "Company") = Json.str cn)
    (hbt : jGetD kvs "nature_of_business" (Json.str "") = Json.str bt)
    (h : generate fl (Json.obj kvs) logo = GenResult.ok slides fn) :
    slides.map Slide.gradFrom =
      (List.range 12).map (fun k : ℕ => lerp3 (hex_to_rgb (pick_theme cn bt).1)
        (hex_to_rgb (pick_theme cn bt).2) ((k : ℚ) / 12)) ∧
    slides.map Slide.gradTo =
      (List.range 12).map (fun k : ℕ => lerp3 (hex_to_rgb (pick_theme cn bt).1)
        (hex_to_rgb (pick_theme cn bt).2) (((k : ℚ) + 1) / 12)) := by
  obtain ⟨kvs2, hkv, hbody⟩ := generate_ok_inv h
  injection hkv with hkv
  subst hkv
  obtain ⟨cN, bN, th, tIt, uIt, b0, b1, b2, b3, b4, b5, b6, b9, b10, b11,
    ch6, ch11, r0, r1, r2, r3, r4, r5, r6, r7, r8, r9, r10, r11, hth,
    hc, hb, ht, hu, h0, h1, h2, h3, h4, h5, h6, h7, h8, h9, h10, h11, hsl⟩ :=
    generateBody_ok_shape fl kvs logo slides fn hbody
  rw [hcn] at hc
  simp only [asStr, Except.ok.injEq] at hc
  rw [hbt] at hb
  simp only [asStr, Except.ok.injEq] at hb
  subst hc
  subst hb
  subst hth
  rw [hsl, add_styled_slide_ok_eq h0, add_styled_slide_ok_eq h1,
    add_styled_slide_ok_eq h2, add_styled_slide_ok_eq h3,
    add_styled_slide_ok_eq h4, add_styled_slide_ok_eq h5,
    add_styled_slide_ok_eq h6, add_styled_slide_ok_eq h7,
    add_styled_slide_ok_eq h8, add_styled_slide_ok_eq h9,
    add_styled_slide_ok_eq h10, add_styled_slide_ok_eq h11]
  constructor <;> simp [mkSlide, List.range_succ]

/-- Witness for C6: on a tech-keyword payload, the twelve colorFrom arguments
handed to the gradient renderer are the interpolations of the tech theme
colors at fractions k/12. -/
theorem slide_gradient_interpolation_witness :
    GenResult.gradFromsOf (generate noFail demoTech none) =
      some ((List.range 12).map (fun k : ℕ =>
        lerp3 (hex_to_rgb (pick_theme "Acme AI" "").1)
          (hex_to_rgb (pick_theme "Acme AI" "").2) ((k : ℚ) / 12))) := by
  obtain ⟨slides, fn, hgen⟩ :
      ∃ slides fn, generate noFail demoTech none = GenResult.ok slides fn :=
    ⟨_, _, rfl⟩
  have h := slide_gradient_interpolation noFail [("company_name", Json.str "Acme AI")]
    none slides fn "Acme AI" "" rfl rfl hgen
  rw [hgen]
  simp only [GenResult.gradFromsOf]
  rw [h.1]

/-- A non-empty string has a non-empty character list. -/
theorem string_data_ne_nil (s : String) (h : s ≠ "") : s.data ≠ [] := by
  cases s with
  | mk l =>
      cases l with
      | nil => exact absurd rfl h
      | cons c cs => simp

/-- C7: when a logo byte buffer is present, each placement rewinds the stream
to position 0 after reading, so a successful request places the full logo
bytes on every one of the 12 slides. -/
theorem logo_buffer_rewound (buf : LogoBuf) :
    placeLogoF false buf = (some buf.data, ⟨buf.data, 0⟩) ∧
    (∀ (fl : Elem → Bool) (p : Json) (slides : List Slide) (fn : String),
      fl Elem.logo = false →
      generate fl p (some buf) = GenResult.ok slides fn →
      slides.map Slide.logoBytes = List.replicate 12 (some buf.data)) := by
  constructor
  · simp [placeLogoF]
  · intro fl p slides fn hlf h
    obtain ⟨kvs, rfl, hbody⟩ := generate_ok_inv h
    obtain ⟨cN, bN, th, tIt, uIt, b0, b1, b2, b3, b4, b5, b6, b9, b10, b11,
      ch6, ch11, r0, r1, r2, r3, r4, r5, r6, r7, r8, r9, r10, r11, hth,
      hc, hb, hti, hui, h0, h1, h2, h3, h4, h5, h6, h7, h8, h9, h10, h11, hsl⟩ :=
      generateBody_ok_shape fl kvs (some buf) slides fn hbody
    rw [hsl, add_styled_slide_ok_eq h11, add_styled_slide_ok_eq h10,
      add_styled_slide_ok_eq h9, add_styled_slide_ok_eq h8,
      add_styled_slide_ok_eq h7, add_styled_slide_ok_eq h6,
      add_styled_slide_ok_eq h5, add_styled_slide_ok_eq h4,
      add_styled_slide_ok_eq h3, add_styled_slide_ok_eq h2,
      add_styled_slide_ok_eq h1, add_styled_slide_ok_eq h0]
    simp [mkSlide, placeLogoF, hlf, List.replicate]

/-- Witness for C7 with a concrete two-byte buffer at a nonzero position. -/
theorem logo_buffer_rewound_witness :
    placeLogoF false ⟨[7, 8], 1⟩ = (some [7, 8], ⟨[7, 8], 0⟩) ∧
    GenResult.logosOf (generate noFail demoPayload (some ⟨[7, 8], 1⟩)) =
      some (List.replicate 12 (some [7, 8])) := by
  obtain ⟨slides, fn, hgen⟩ :
      ∃ slides fn, generate noFail demoPayload (some ⟨[7, 8], 1⟩) =
        GenResult.ok slides fn := ⟨_, _, rfl⟩
  have h := logo_buffer_rewound ⟨[7, 8], 1⟩
  refine ⟨h.1, ?_⟩
  rw [hgen]
  simp only [GenResult.logosOf]
  rw [h.2 noFail demoPayload slides fn rfl hgen]

/-- C9: a payload giving target_market (or usp) as a non-empty string is
iterated character by character, so the corresponding slide body is one
bullet line per character of the string. -/
theorem string_field_char_bullets (fl : Elem → Bool) (kvs : List (String × Json))
    (logo : Option LogoBuf) (slides : List Slide) (fn : String) (s u : String)
    (htm : jGetD kvs "target_market" (Json.arr []) = Json.str s) (hs : s ≠ "")
    (hus : jGetD kvs "usp" Json.null = Json.str u) (hu : u ≠ "")
    (h : generate fl (Json.obj kvs) logo = GenResult.ok slides fn) :
    (slides.getD 7 defaultSlide).bodyLines =
      s.toList.map (fun c => Json.str ("• " ++ String.singleton c)) ∧
    (slides.getD 8 defaultSlide).bodyLines =
      u.toList.map (fun c => Json.str ("• " ++ String.singleton c)) := by
  obtain ⟨kvs2, hkv, hbody⟩ := generate_ok_inv h
  injection hkv with hkv
  subst hkv
  obtain ⟨cN, bN, th, tIt, uIt, b0, b1, b2, b3, b4, b5, b6, b9, b10, b11,
    ch6, ch11, r0, r1, r2, r3, r4, r5, r6, r7, r8, r9, r10, r11, hth,
    hc, hb, hti, hui, h0, h1, h2, h3, h4, h5, h6, h7, h8, h9, h10, h11, hsl⟩ :=
    generateBody_ok_shape fl kvs logo slides fn hbody
  rw [htm] at hti
  simp only [pyIter, Except.ok.injEq] at hti
  have htr : (Json.str u).truthy = true := by simp [Json.truthy, hu]
  rw [hus] at hui
  simp only [pyOr, htr, if_true, pyIter, Except.ok.injEq] at hui
  rw [hsl]
  have g7 : ([r0.1, r1.1, r2.1, r3.1, r4.1, r5.1, r6.1, r7.1, r8.1, r9.1,
      r10.1, r11.1].getD 7 defaultSlide) = r7.1 := rfl
  have g8 : ([r0.1, r1.1, r2.1, r3.1, r4.1, r5.1, r6.1, r7.1, r8.1, r9.1,
      r10.1, r11.1].getD 8 defaultSlide) = r8.1 := rfl
  rw [g7, g8, add_styled_slide_ok_eq h7, add_styled_slide_ok_eq h8]
  constructor
  · simp [mkSlide, bulletsOr, ← hti, List.map_map,
      string_data_ne_nil s hs, pyStr, Function.comp]
  · simp [mkSlide, bulletsOr, ← hui, List.map_map,
      string_data_ne_nil u hu, pyStr, Function.comp]

/-- Witness for C9: target_market "ab" and usp "cd" become one bullet per
character on slides 8 and 9 (indices 7 and 8). -/
theorem string_field_char_bullets_witness :
    GenResult.bodyAt (generate noFail demoStrings none) 7 =
      some [Json.str "• a", Json.str "• b"] ∧
    GenResult.bodyAt (generate noFail demoStrings none) 8 =
      some [Json.str "• c", Json.str "• d"] := by
  obtain ⟨slides, fn, hgen⟩ :
      ∃ slides fn, generate noFail demoStrings none = GenResult.ok slides fn :=
    ⟨_, _, rfl⟩
  have h := string_field_char_bullets noFail
    [("target_market", Json.str "ab"), ("usp", Json.str "cd")] none slides fn
    "ab" "cd" rfl (by decide) rfl (by decide) hgen
  rw [hgen]
  simp only [GenResult.bodyAt]
  rw [h.1, h.2]
  exact ⟨rfl, rfl⟩

end PptxGen